import Mathlib

/-!
Verification of the SEINXCAL calendar client core against its design
specification.  The definitions below are a shallow embedding of the
Python source (src/claudever.py): the TokenManager class, the event
categorization pass of MainWindow, the event-creation wire serializer,
the update-dialog deserializer, and the AddEventDialog input
sanitization.  Machine-level effects (file writes, chmod calls, network
refresh exchanges) are made explicit as a trace of actions so that the
error-handling and idempotence claims can be stated.
-/

namespace Seinxcal

/-! ## Credential lifecycle manager (class TokenManager)

A Credential models the google.oauth2 Credentials object as the
TokenManager observes it: an expiry flag, an optional refresh token
string, and the opaque access-token material (used only to distinguish
credential objects).  The persisted record token.json is modelled as an
optional Credential (missing or unparsable files collapse to none, as
load_credentials treats both as absent). -/

structure Credential where
  expired : Bool
  refreshToken : Option String
  accessToken : String
  deriving DecidableEq

/-- Python truthiness of an optional string field: None and the empty
string are falsy.  Used for the checks on credentials.refresh_token. -/
def truthyStr : Option String → Bool
  | none => false
  | some s => !s.isEmpty

/-- The mutable state of the TokenManager instance: the persisted
token.json record and the in-memory self.credentials object. -/
structure TMState where
  tokenFile : Option Credential
  credentials : Option Credential
  deriving DecidableEq

/-- Observable side effects of TokenManager methods: reading the
persisted record, creating/rewriting token.json with given permission
bits, chmodding it, and performing a refresh network exchange. -/
inductive Action where
  | readTokenFile
  | openWriteTokenFile (mode : Nat)
  | chmodTokenFile (mode : Nat)
  | refreshCall
  deriving DecidableEq

/-- Permission bits of a file freshly created by open(path, 'w'):
0o666 masked by the process umask (only the low 9 bits matter). -/
def defaultCreateMode (umask : Nat) : Nat :=
  Nat.land 438 (511 - Nat.land umask 511)

/-- Embedding of set_secure_file_permissions (claudever.py:817): on the
Unix branch it chmods the file to S_IRUSR|S_IWUSR, i.e. mode 0o600 =
384.  The path argument is kept for shape; the model only tracks the
token file. -/
def set_secure_file_permissions (_filepath : String) : Action :=
  Action.chmodTokenFile 384

/-- Embedding of TokenManager.load_credentials: if token.json exists
(and parses), set self.credentials to its contents and return them;
otherwise return None leaving the state alone.  The read attempt is
recorded in the trace. -/
def load_credentials (s : TMState) : Option Credential × TMState × List Action :=
  match s.tokenFile with
  | some c => (some c, { s with credentials := some c }, [Action.readTokenFile])
  | none => (none, s, [Action.readTokenFile])

/-- Embedding of TokenManager.is_token_valid on a given credentials
object (the callers in the source always pass self.credentials): false
when absent, false when expired, false when there is no (truthy)
refresh token, true otherwise. -/
def is_token_valid (credentials : Option Credential) : Bool :=
  match credentials with
  | none => false
  | some c =>
    if c.expired then false
    else if !truthyStr c.refreshToken then false
    else true

/-- Embedding of TokenManager.save_credentials: write the credential to
token.json with open(path, 'w'), which creates the file with the
umask-derived default mode; no chmod is performed.  Returns the
method's boolean result together with the new state and trace. -/
def save_credentials (umask : Nat) (arg : Option Credential) (s : TMState) :
    Bool × TMState × List Action :=
  match (match arg with | some c => some c | none => s.credentials) with
  | none => (false, s, [])
  | some c =>
    (true, { s with tokenFile := some c },
      [Action.openWriteTokenFile (defaultCreateMode umask)])

/-- Embedding of TokenManager.refresh_token_if_needed operating on
self.credentials (the only way the program calls it).  The outcome of
the network refresh exchange is an environment parameter env: some c
means credentials.refresh succeeded and mutated the object into c
(which is then persisted via save_credentials); none means the refresh
raised, in which case the method returns None and the state is left
untouched. -/
def refresh_token_if_needed (umask : Nat) (env : Option Credential) (s : TMState) :
    Option Credential × TMState × List Action :=
  match s.credentials with
  | none => (none, s, [])
  | some c =>
    if c.expired && truthyStr c.refreshToken then
      match env with
      | some c' =>
        let s1 : TMState := { s with credentials := some c' }
        let r := save_credentials umask (some c') s1
        (some c', r.2.1, Action.refreshCall :: r.2.2)
      | none => (none, s, [Action.refreshCall])
    else if c.expired && !truthyStr c.refreshToken then
      (none, s, [])
    else
      (some c, s, [])

/-- Embedding of TokenManager.get_valid_credentials: load the persisted
record if nothing is in memory, return it directly when
is_token_valid, otherwise attempt a refresh and return its result (or
None). -/
def get_valid_credentials (umask : Nat) (env : Option Credential) (s : TMState) :
    Option Credential × TMState × List Action :=
  let step1 : TMState × List Action :=
    match s.credentials with
    | none =>
      let r := load_credentials s
      (r.2.1, r.2.2)
    | some _ => (s, [])
  let s1 := step1.1
  match s1.credentials with
  | none => (none, s1, step1.2)
  | some c =>
    if is_token_valid (some c) then
      (some c, s1, step1.2)
    else
      let r := refresh_token_if_needed umask env s1
      match r.1 with
      | some c' => (some c', { r.2.1 with credentials := some c' }, step1.2 ++ r.2.2)
      | none => (none, r.2.1, step1.2 ++ r.2.2)

/-! ## Event window resolver (MainWindow.categorize_events / load_events)

Calendar instants are modelled in minutes.  A parsed dateTime string
carries a wall-clock reading together with the UTC offset it was
written with (datetime.fromisoformat keeps both); the absolute instant
it denotes is wall - off, in UTC minutes.  Whole-day boundaries are
day numbers.  A Boundary mirrors the start/end dicts of the Google
wire format: it may carry a date key, a dateTime key, both or neither,
so variant-mismatched events are expressible. -/

structure InstantDT where
  wall : Int
  off : Int
  deriving DecidableEq

structure Boundary where
  date : Option Int
  dateTime : Option InstantDT
  deriving DecidableEq

structure GEvent where
  id : Nat
  status : Option String
  start : Boundary
  end_ : Boundary
  deriving DecidableEq

/-- The absolute instant (UTC minutes) denoted by an aware datetime
with the given wall clock and offset; timezone-aware comparisons in
Python compare these values. -/
def awareInstant (wall off : Int) : Int := wall - off

/-- Embedding of the per-event body of MainWindow.categorize_events
(claudever.py:2396-2441), for one event.  localOff is the fixed offset
of the tzlocal zone for the pass; ts and te are the local wall-clock
minutes of today_start and today_end (local midnights, so their aware
instants are ts - localOff and te - localOff and their .date() values
are ts / 1440 and te / 1440).  Result: ok (some true) = appended to
today_events, ok (some false) = appended to upcoming_events, ok none =
skipped (cancelled) or matched no branch, error = a KeyError escaped
(missing dict key for the variant the code committed to). -/
def categorize_one (localOff ts te : Int) (e : GEvent) : Except String (Option Bool) :=
  if e.status = some "cancelled" then Except.ok none
  else
    match e.start.date with
    | some sd =>
      match e.end_.date with
      | none => Except.error "KeyError: date"
      | some ed =>
        let todayDate := Int.fdiv ts 1440
        let todayEndDate := Int.fdiv te 1440
        if sd ≤ todayDate ∧ ed > todayDate then Except.ok (some true)
        else if sd > todayEndDate then Except.ok (some false)
        else Except.ok none
    | none =>
      match e.start.dateTime with
      | none => Except.error "KeyError: dateTime"
      | some sdt =>
        match e.end_.dateTime with
        | none => Except.error "KeyError: dateTime"
        | some edt =>
          let start_local := awareInstant sdt.wall localOff
          let end_local := awareInstant edt.wall localOff
          let tsI := awareInstant ts localOff
          let teI := awareInstant te localOff
          if start_local < teI ∧ end_local > tsI then Except.ok (some true)
          else if start_local ≥ teI then Except.ok (some false)
          else Except.ok none

/-- Embedding of MainWindow.categorize_events: fold categorize_one over
the event list in order, appending to the today and upcoming buckets;
the first escaping KeyError aborts the whole pass. -/
def categorize_events (localOff ts te : Int) :
    List GEvent → Except String (List GEvent × List GEvent)
  | [] => Except.ok ([], [])
  | e :: rest =>
    match categorize_one localOff ts te e with
    | Except.error m => Except.error m
    | Except.ok tag =>
      match categorize_events localOff ts te rest with
      | Except.error m => Except.error m
      | Except.ok (t, u) =>
        match tag with
        | some true => Except.ok (e :: t, u)
        | some false => Except.ok (t, e :: u)
        | none => Except.ok (t, u)

/-- Embedding of the categorization step of MainWindow.load_events
(claudever.py:2476-2487 with the except handler at 2501): on success
the two buckets are handed to populate_table and no error is shown; if
categorize_events raises, the exception is caught by the surrounding
try and a single warning dialog is shown, and no buckets from this
fetch are populated. -/
def load_events_categorize (localOff ts te : Int) (events : List GEvent) :
    (List GEvent × List GEvent) × List String :=
  match categorize_events localOff ts te events with
  | Except.ok p => (p, [])
  | Except.error m => (([], []), ["Failed to load events: " ++ m])

/-- Modelled from the spec (section 4.2, step for instant events):
convert both boundaries to the local timezone preserving the absolute
instant they denote, then today iff the interval overlaps
today's window and upcoming iff start is at or after todayEnd.  This
is the comparison definition for the refinement claim about timezone
conversion; it is written from the spec's words, not from the code. -/
def categorize_instant_spec (localOff ts te : Int) (sdt edt : InstantDT) : Option Bool :=
  let s := sdt.wall - sdt.off + localOff
  let e := edt.wall - edt.off + localOff
  if s < te ∧ e > ts then some true
  else if s ≥ te then some false
  else none

/-- An event whose boundary dicts make categorize_one raise a KeyError:
a date-variant start without a date end, or a start without a date key
whose own or whose end's dateTime key is missing. -/
def malformedBoundary (e : GEvent) : Bool :=
  (e.start.date.isSome && e.end_.date.isNone) ||
    (e.start.date.isNone && (e.start.dateTime.isNone || e.end_.dateTime.isNone))

/-! ## Event mutation facade (create_calendar_event, UpdateEventDialog)

Wire serialization of a validated draft and deserialization of a wire
event back into the edit dialog.  Calendar dates are day numbers here,
so the timedelta(days=1) of the serializer is +1. -/

/-- The event_data dict produced by AddEventDialog.get_event_data as
create_calendar_event consumes it: text fields plus start/end, with
the date components as day numbers and the time-of-day components in
minutes (meaningful only when is_all_day is false, matching the
date-vs-datetime split in the dict). -/
structure EventData where
  name : List Char
  location : List Char
  remarks : List Char
  startDay : Int
  startMin : Int
  endDay : Int
  endMin : Int
  is_all_day : Bool
  deriving DecidableEq

/-- A CalendarEvent in wire form, as built by create_calendar_event
and consumed by UpdateEventDialog. -/
structure WireEvent where
  summary : List Char
  location : List Char
  description : List Char
  start : Boundary
  end_ : Boundary
  deriving DecidableEq

/-- Embedding of the payload construction in
MainWindow.create_calendar_event (claudever.py:2300-2318): all-day
drafts serialize to date boundaries with one day added to the end
date; timed drafts serialize to naive isoformat datetimes paired with
the local zone name, denoting the wall clock at offset localOff. -/
def create_calendar_event (localOff : Int) (ed : EventData) : WireEvent :=
  { summary := ed.name
    location := ed.location
    description := ed.remarks
    start :=
      if ed.is_all_day then { date := some ed.startDay, dateTime := none }
      else { date := none, dateTime := some ⟨ed.startDay * 1440 + ed.startMin, localOff⟩ }
    end_ :=
      if ed.is_all_day then { date := some (ed.endDay + 1), dateTime := none }
      else { date := none, dateTime := some ⟨ed.endDay * 1440 + ed.endMin, localOff⟩ } }

/-- The widget fields UpdateEventDialog.__init__ fills in from a wire
event: the text edits, the all-day checkbox, and the date and time
spinners (day number and minutes within the day). -/
structure UpdateDialogInit where
  nameText : List Char
  locationText : List Char
  remarksText : List Char
  is_all_day : Bool
  startDay : Int
  startMin : Int
  endDay : Int
  endMin : Int
  deriving DecidableEq

/-- start_data.get(dateTime, start_data.get(date)): prefer the
dateTime key, fall back to the date key, absent if neither. -/
def boundaryValue (b : Boundary) : Option (InstantDT ⊕ Int) :=
  match b.dateTime with
  | some dt => some (Sum.inl dt)
  | none => Option.map Sum.inr b.date

/-- The calendar day of the parsed boundary value: the wall-clock date
for a datetime string, the date itself for a date-only string (parsed
at midnight). -/
def valueDay : InstantDT ⊕ Int → Int
  | Sum.inl dt => Int.fdiv dt.wall 1440
  | Sum.inr d => d

/-- The time of day of the parsed boundary value: wall-clock minutes
for a datetime string, midnight for a date-only string. -/
def valueMin : InstantDT ⊕ Int → Int
  | Sum.inl dt => Int.emod dt.wall 1440
  | Sum.inr _ => 0

/-- Embedding of UpdateEventDialog.__init__ (claudever.py:1690-1740):
prefill the text edits from the wire event, set the all-day checkbox
from the presence of a date key on the start boundary, and set each
date/time widget from the parsed start and end values.  No adjustment
is made to the end date for all-day events.  If a boundary has neither
key the parse crashes (modelled as an error). -/
def UpdateEventDialog_init (w : WireEvent) : Except String UpdateDialogInit :=
  match boundaryValue w.start, boundaryValue w.end_ with
  | some sv, some ev =>
    Except.ok
      { nameText := w.summary
        locationText := w.location
        remarksText := w.description
        is_all_day := w.start.date.isSome
        startDay := valueDay sv
        startMin := valueMin sv
        endDay := valueDay ev
        endMin := valueMin ev }
  | _, _ => Except.error "TypeError: boundary has neither date nor dateTime"

/-! ## Add-event dialog input handling (AddEventDialog)

Text is a list of characters.  The Python character classes
str.isprintable and the whitespace set of str.strip are parameters of
the embedding (ispr, isws), so every theorem below holds for the real
Unicode classes; witnesses instantiate them with their ASCII
restrictions. -/

/-- Embedding of str.strip: drop characters satisfying isws from both
ends. -/
def pyStrip (isws : Char → Bool) (s : List Char) : List Char :=
  ((s.dropWhile isws).reverse.dropWhile isws).reverse

/-- Embedding of the local sanitize helper in
AddEventDialog.get_event_data (claudever.py:1459-1460): strip the
text, keep only printable characters, and truncate to maxlen. -/
def sanitize (ispr isws : Char → Bool) (text : List Char) (maxlen : Nat) : List Char :=
  (List.filter ispr (pyStrip isws text)).take maxlen

/-- A QDate as the dialog widgets hold it: year, month, day.  QDate
comparison is chronological, which on valid widget dates coincides
with lexicographic order on (y, m, d). -/
structure PDate where
  y : Int
  m : Int
  d : Int
  deriving DecidableEq

/-- Strict chronological order on widget dates. -/
def PDate.lt (a b : PDate) : Bool :=
  a.y < b.y ∨ (a.y = b.y ∧ (a.m < b.m ∨ (a.m = b.m ∧ a.d < b.d)))

/-- QDate.isValid for widget-held dates: month and day in calendar
range (the widgets never produce anything coarser than this). -/
def PDate.isValidQ (p : PDate) : Bool :=
  1 ≤ p.m ∧ p.m ≤ 12 ∧ 1 ≤ p.d ∧ p.d ≤ 31

/-- The dialog widget state read by validate_input and get_event_data:
the three text edits, the date and time widgets (time of day in
minutes), the all-day checkbox, and the current year used by the
date-range check. -/
structure DialogState where
  nameText : List Char
  locationText : List Char
  remarksText : List Char
  startDate : PDate
  endDate : PDate
  startTime : Int
  endTime : Int
  allDay : Bool
  currentYear : Int
  deriving DecidableEq

/-- Embedding of AddEventDialog.validate_input (claudever.py:1382-1426):
title non-empty after strip, both dates valid and with year in
[1900, currentYear + 10], start on or before end for all-day drafts,
start strictly before end for timed drafts.  Returns the validity flag
and the error-message key. -/
def validate_input (isws : Char → Bool) (st : DialogState) : Bool × String :=
  if pyStrip isws st.nameText = [] then (false, "event_title_required")
  else if !st.startDate.isValidQ then (false, "invalid_start_date")
  else if !st.endDate.isValidQ then (false, "invalid_end_date")
  else if st.startDate.y < 1900 ∨ st.startDate.y > st.currentYear + 10 then
    (false, "start_date_out_of_range")
  else if st.endDate.y < 1900 ∨ st.endDate.y > st.currentYear + 10 then
    (false, "end_date_out_of_range")
  else if st.allDay then
    if PDate.lt st.endDate st.startDate then (false, "start_date_after_end_date")
    else (true, "")
  else
    if !PDate.lt st.startDate st.endDate ∧
        !(st.startDate = st.endDate ∧ st.startTime < st.endTime) then
      (false, "start_time_after_end_time")
    else (true, "")

/-- A start or end value of the returned event_data dict: a plain date
for all-day drafts, a date plus time of day for timed drafts. -/
inductive DraftTime where
  | dateOnly (d : PDate)
  | dateAndTime (d : PDate) (minutes : Int)
  deriving DecidableEq

/-- The event_data dict returned by AddEventDialog.get_event_data. -/
structure EventDraft where
  name : List Char
  location : List Char
  remarks : List Char
  start : DraftTime
  end_ : DraftTime
  is_all_day : Bool
  deriving DecidableEq

/-- Embedding of AddEventDialog.get_event_data (claudever.py:1434-1475):
validate first and return None on failure; otherwise build the dict
with the name and location sanitized at 256 characters, the remarks
sanitized at 1024, and date-only start/end for all-day drafts. -/
def get_event_data (ispr isws : Char → Bool) (st : DialogState) : Option EventDraft :=
  if (validate_input isws st).1 = false then none
  else
    some
      { name := sanitize ispr isws st.nameText 256
        location := sanitize ispr isws st.locationText 256
        remarks := sanitize ispr isws st.remarksText 1024
        start :=
          if st.allDay then DraftTime.dateOnly st.startDate
          else DraftTime.dateAndTime st.startDate st.startTime
        end_ :=
          if st.allDay then DraftTime.dateOnly st.endDate
          else DraftTime.dateAndTime st.endDate st.endTime
        is_all_day := st.allDay }

/-! ## Concrete inputs used by the counterexamples and witnesses -/

/-- An expired credential carrying a refresh token (so a refresh will
be attempted), distinguishable by its token material. -/
def credStale : Credential := ⟨true, some "rt", "stale-token"⟩

/-- A different credential sitting in the persisted token.json record. -/
def credDisk : Credential := ⟨false, some "rt2", "disk-token"⟩

/-- An unexpired credential with no refresh token. -/
def credNoRefresh : Credential := ⟨false, none, "fresh-token"⟩

/-- An expired credential with no refresh token. -/
def credExpiredNoRefresh : Credential := ⟨true, none, "dead-token"⟩

/-- Manager state for the failed-refresh scenario: credStale is in
memory while credDisk is the persisted record. -/
def sC5 : TMState := ⟨some credDisk, some credStale⟩

/-! ## Token-manager theorems -/

/-- A call on a state whose in-memory credential is unexpired performs
no load, no refresh call and no write, and returns that credential
with the state unchanged (for both the with- and without-refresh-token
cases). -/
theorem gvc_unexpired_mem (umask : Nat) (env : Option Credential) (s : TMState)
    (c : Credential) (hs : s.credentials = some c) (he : c.expired = false) :
    get_valid_credentials umask env s = (some c, s, []) := by
  obtain ⟨tf, cr⟩ := s
  simp only [TMState.credentials] at hs
  subst hs
  by_cases ht : truthyStr c.refreshToken = true
  · simp [get_valid_credentials, is_token_valid, he, ht]
  · simp only [Bool.not_eq_true] at ht
    simp [get_valid_credentials, is_token_valid, refresh_token_if_needed, he, ht]

/-- A call on a state with no in-memory credential and an unexpired
persisted record loads the record and returns it without any refresh
call. -/
theorem gvc_unexpired_load (umask : Nat) (env : Option Credential) (s : TMState)
    (c : Credential) (hn : s.credentials = none) (hf : s.tokenFile = some c)
    (he : c.expired = false) :
    get_valid_credentials umask env s =
      (some c, ⟨some c, some c⟩, [Action.readTokenFile]) := by
  obtain ⟨tf, cr⟩ := s
  simp only [TMState.credentials, TMState.tokenFile] at hn hf
  subst hn; subst hf
  by_cases ht : truthyStr c.refreshToken = true
  · simp [get_valid_credentials, load_credentials, is_token_valid, he, ht]
  · simp only [Bool.not_eq_true] at ht
    simp [get_valid_credentials, load_credentials, is_token_valid,
      refresh_token_if_needed, he, ht]

/-- Claim C5: whenever a refresh attempt fails, the token manager is
claimed to clear its in-memory Credential.  Counterexample: starting
from sC5 (expired refreshable credential in memory, a different record
on disk) with the refresh exchange failing, the in-memory credential
after get_valid_credentials is still credStale, not none. -/
theorem c5_counterexample :
    (get_valid_credentials 18 none sC5).2.1.credentials = some credStale ∧
      some credStale ≠ (none : Option Credential) := by
  constructor
  · rfl
  · simp

/-- Claim C5 (amended): a failed refresh leaves the in-memory
Credential in place and the state unchanged; the next
get_valid_credentials call does not read the persisted record and
re-attempts the refresh on the same in-memory object. -/
theorem c5_amended_no_clear (umask : Nat) (s : TMState) (c : Credential)
    (env2 : Option Credential) (hs : s.credentials = some c)
    (he : c.expired = true) (ht : truthyStr c.refreshToken = true) :
    (get_valid_credentials umask none s).1 = none ∧
      (get_valid_credentials umask none s).2.1 = s ∧
      Action.readTokenFile ∉
        (get_valid_credentials umask env2 (get_valid_credentials umask none s).2.1).2.2 ∧
      Action.refreshCall ∈
        (get_valid_credentials umask env2 (get_valid_credentials umask none s).2.1).2.2 := by
  obtain ⟨tf, cr⟩ := s
  simp only [TMState.credentials] at hs
  subst hs
  have h1 : get_valid_credentials umask none ⟨tf, some c⟩ =
      (none, ⟨tf, some c⟩, [Action.refreshCall]) := by
    simp [get_valid_credentials, is_token_valid, refresh_token_if_needed, he, ht]
  refine ⟨by rw [h1], by rw [h1], ?_, ?_⟩ <;> rw [h1] <;>
    cases env2 <;>
      simp [get_valid_credentials, is_token_valid, refresh_token_if_needed,
        save_credentials, he, ht]

/-- Witness for the amended C5 theorem at the concrete scenario state. -/
theorem c5_amended_witness :
    (get_valid_credentials 18 none sC5).1 = none ∧
      (get_valid_credentials 18 none sC5).2.1 = sC5 ∧
      Action.readTokenFile ∉
        (get_valid_credentials 18 none (get_valid_credentials 18 none sC5).2.1).2.2 ∧
      Action.refreshCall ∈
        (get_valid_credentials 18 none (get_valid_credentials 18 none sC5).2.1).2.2 :=
  c5_amended_no_clear 18 sC5 credStale none rfl rfl rfl

/-- Claim C6: is_token_valid is claimed to return true for every
present, unexpired credential even when no refresh token is available.
Counterexample: credNoRefresh is present and unexpired but has no
refresh token, and is_token_valid rejects it. -/
theorem c6_counterexample : is_token_valid (some credNoRefresh) = false := by
  rfl

/-- Claim C6 (amended): is_token_valid returns true iff the credential
is present, not expired, and carries a non-empty refresh token; in
particular an unexpired credential without a refresh token is
rejected, as is every expired credential. -/
theorem c6_amended_characterization (oc : Option Credential) :
    is_token_valid oc = true ↔
      ∃ c, oc = some c ∧ c.expired = false ∧ truthyStr c.refreshToken = true := by
  cases oc with
  | none => simp [is_token_valid]
  | some c =>
    by_cases he : c.expired = true
    · simp [is_token_valid, he]
    · simp only [Bool.not_eq_true] at he
      by_cases ht : truthyStr c.refreshToken = true
      · simp [is_token_valid, he, ht]
      · simp only [Bool.not_eq_true] at ht
        simp [is_token_valid, he, ht]

/-- Claim C7: for a persisted credential that is expired and has no
refresh token, get_valid_credentials returns none and performs no
refresh network call (the trace is exactly the record read). -/
theorem c7_expired_no_refresh (umask : Nat) (env : Option Credential)
    (c : Credential) (he : c.expired = true) (hr : c.refreshToken = none) :
    (get_valid_credentials umask env (⟨some c, none⟩ : TMState)).1 = none ∧
      (get_valid_credentials umask env (⟨some c, none⟩ : TMState)).2.2 =
        [Action.readTokenFile] ∧
      Action.refreshCall ∉
        (get_valid_credentials umask env (⟨some c, none⟩ : TMState)).2.2 := by
  have h : get_valid_credentials umask env (⟨some c, none⟩ : TMState) =
      (none, ⟨some c, some c⟩, [Action.readTokenFile]) := by
    simp [get_valid_credentials, load_credentials, is_token_valid,
      refresh_token_if_needed, truthyStr, he, hr]
  rw [h]
  simp

/-- Witness for C7 at a concrete expired credential without a refresh
token. -/
theorem c7_witness :
    (get_valid_credentials 18 none (⟨some credExpiredNoRefresh, none⟩ : TMState)).1 = none ∧
      (get_valid_credentials 18 none
          (⟨some credExpiredNoRefresh, none⟩ : TMState)).2.2 = [Action.readTokenFile] ∧
      Action.refreshCall ∉
        (get_valid_credentials 18 none
          (⟨some credExpiredNoRefresh, none⟩ : TMState)).2.2 :=
  c7_expired_no_refresh 18 none credExpiredNoRefresh rfl rfl

/-- Claim C8: with an unexpired credential (held in memory or loaded
from the persisted record), two successive get_valid_credentials calls
both return that credential, the second performs no refresh call, and
the state is unchanged by the second call. -/
theorem c8_idempotent (umask : Nat) (env env2 : Option Credential) (s : TMState)
    (c : Credential) (he : c.expired = false)
    (hs : s.credentials = some c ∨ (s.credentials = none ∧ s.tokenFile = some c)) :
    (get_valid_credentials umask env s).1 = some c ∧
      (get_valid_credentials umask env2 (get_valid_credentials umask env s).2.1).1 =
        some c ∧
      Action.refreshCall ∉
        (get_valid_credentials umask env2 (get_valid_credentials umask env s).2.1).2.2 ∧
      (get_valid_credentials umask env2 (get_valid_credentials umask env s).2.1).2.1 =
        (get_valid_credentials umask env s).2.1 := by
  rcases hs with hs | ⟨hn, hf⟩
  · rw [gvc_unexpired_mem umask env s c hs he]
    rw [gvc_unexpired_mem umask env2 s c hs he]
    simp
  · rw [gvc_unexpired_load umask env s c hn hf he]
    rw [gvc_unexpired_mem umask env2 ⟨some c, some c⟩ c rfl he]
    simp

/-- Witness for C8: two calls starting from a fresh manager whose
persisted record holds the unexpired credDisk. -/
theorem c8_witness :
    (get_valid_credentials 18 none (⟨some credDisk, none⟩ : TMState)).1 = some credDisk ∧
      (get_valid_credentials 18 none
          (get_valid_credentials 18 none (⟨some credDisk, none⟩ : TMState)).2.1).1 =
        some credDisk ∧
      Action.refreshCall ∉
        (get_valid_credentials 18 none
          (get_valid_credentials 18 none (⟨some credDisk, none⟩ : TMState)).2.1).2.2 ∧
      (get_valid_credentials 18 none
          (get_valid_credentials 18 none (⟨some credDisk, none⟩ : TMState)).2.1).2.1 =
        (get_valid_credentials 18 none (⟨some credDisk, none⟩ : TMState)).2.1 :=
  c8_idempotent 18 none none ⟨some credDisk, none⟩ credDisk rfl (Or.inr ⟨rfl, rfl⟩)

/-- Claim C9: every write of token.json is claimed to create the file
with owner-only permissions.  Evaluating the embedded save_credentials
at a concrete write under the common umask 0o022: the file is created
with mode 0o644 = 420, no chmod is performed, and the unused
set_secure_file_permissions helper is the only place mode 0o600 = 384
appears. -/
theorem c9_save_permissions_eval :
    (save_credentials 18 (some credDisk) (⟨none, none⟩ : TMState)).2.2 =
      [Action.openWriteTokenFile 420] ∧
      Action.chmodTokenFile 384 ∉
        (save_credentials 18 (some credDisk) (⟨none, none⟩ : TMState)).2.2 ∧
      set_secure_file_permissions "token.json" = Action.chmodTokenFile 384 ∧
      (420 : Nat) ≠ 384 := by
  refine ⟨rfl, ?_, rfl, by decide⟩
  decide

/-! ## Event-window resolver theorems

Reference date day 0, so today_start is local wall minute 0 and
today_end is local wall minute 1440, exactly as load_events builds
them from midnights of the current date. -/

/-- A non-cancelled whole-day event covering exactly the day after the
reference date (start day 1, exclusive end day 2). -/
def evTomorrow : GEvent := ⟨1, none, ⟨some 1, none⟩, ⟨some 2, none⟩⟩

/-- A non-cancelled whole-day event covering the reference day itself. -/
def evGoodToday : GEvent := ⟨0, none, ⟨some 0, none⟩, ⟨some 1, none⟩⟩

/-- An event with mismatched boundary variants: a date start but a
dateTime end. -/
def evMismatched : GEvent := ⟨2, none, ⟨some 3, none⟩, ⟨none, some ⟨0, 0⟩⟩⟩

/-- The instant event of spec Scenario A, as the wire carries it in
UTC: start 23:00Z on day 0, end 01:00Z on day 1 (wall minutes 1380 and
1500 at offset 0). -/
def evScenarioA : GEvent := ⟨3, none, ⟨none, some ⟨1380, 0⟩⟩, ⟨none, some ⟨1500, 0⟩⟩⟩

/-- Claim C1: categorization is claimed to keep every non-cancelled
event intersecting the queried range, and to put every whole-day event
starting strictly after the reference date into the upcoming bucket.
Evaluating the code at a whole-day event for the very next day (start
day 1, reference day 0): it lands in neither bucket, so it is dropped
from the display. -/
theorem c1_allday_tomorrow_dropped :
    categorize_events 0 0 1440 [evTomorrow] = Except.ok ([], []) ∧
      evTomorrow.status ≠ some "cancelled" ∧
      evTomorrow.start.date = some 1 ∧ (0 : Int) < 1 := by
  refine ⟨rfl, by simp [evTomorrow], rfl, by decide⟩

/-- Claim C2: serializing a whole-day draft with user-visible end date
D is claimed to yield wire end D + 1 and to deserialize back to D.
Evaluating at D = 0: the wire end is day 1 (as claimed), but the
update dialog reconstructs end day 1, not 0 — the exclusive end day is
never converted back. -/
theorem c2_allday_roundtrip_eval :
    (create_calendar_event 0
        ⟨[], [], [], 0, 0, 0, 0, true⟩).end_.date = some 1 ∧
      UpdateEventDialog_init (create_calendar_event 0 ⟨[], [], [], 0, 0, 0, 0, true⟩) =
        Except.ok ⟨[], [], [], true, 0, 0, 1, 0⟩ ∧
      (1 : Int) ≠ 0 := by
  refine ⟨rfl, rfl, by decide⟩

/-- On a non-cancelled event whose boundary variants are mismatched,
the per-event categorization raises a KeyError instead of returning a
bucket decision. -/
theorem categorize_one_malformed (localOff ts te : Int) (e : GEvent)
    (hc : ¬e.status = some "cancelled") (hm : malformedBoundary e = true) :
    ∃ m, categorize_one localOff ts te e = Except.error m := by
  simp only [malformedBoundary, Bool.or_eq_true, Bool.and_eq_true,
    Option.isSome_iff_exists, Option.isNone_iff_eq_none] at hm
  rcases hm with ⟨⟨d, hd⟩, hend⟩ | ⟨hd, hdt | hedt⟩
  · exact ⟨"KeyError: date", by simp [categorize_one, hc, hd, hend]⟩
  · exact ⟨"KeyError: dateTime", by simp [categorize_one, hc, hd, hdt]⟩
  · refine ⟨"KeyError: dateTime", ?_⟩
    cases hsdt : e.start.dateTime with
    | none => simp [categorize_one, hc, hd, hsdt]
    | some sdt => simp [categorize_one, hc, hd, hsdt, hedt]

/-- If the fold over a list succeeded, every element passed its
per-event categorization without error. -/
theorem categorize_events_ok_of_mem (localOff ts te : Int) (events : List GEvent)
    (p : List GEvent × List GEvent)
    (h : categorize_events localOff ts te events = Except.ok p) :
    ∀ e ∈ events, ∀ m, categorize_one localOff ts te e ≠ Except.error m := by
  induction events generalizing p with
  | nil => intro e he; simp at he
  | cons a rest ih =>
    intro e he m
    rcases List.mem_cons.mp he with rfl | he'
    · intro hbad
      rw [categorize_events, hbad] at h
      exact Except.noConfusion h
    · rcases ha : categorize_one localOff ts te a with m' | tag
      · rw [categorize_events, ha] at h
        exact Except.noConfusion h
      · rw [categorize_events, ha] at h
        rcases hrest : categorize_events localOff ts te rest with m' | q
        · rw [hrest] at h
          exact Except.noConfusion h
        · exact ih q hrest e he' m

/-- Claim C3: a single variant-mismatched event among well-formed
events is claimed not to change the categorization of the others.
Counterexample: alone, evGoodToday is categorized into the today
bucket, but appending evMismatched makes the whole pass abort with a
KeyError, so the well-formed event is no longer categorized at all. -/
theorem c3_counterexample :
    categorize_events 0 0 1440 [evGoodToday, evMismatched] =
      Except.error "KeyError: date" ∧
      categorize_events 0 0 1440 [evGoodToday] = Except.ok ([evGoodToday], []) := by
  exact ⟨rfl, rfl⟩

/-- Claim C3 (amended): one non-cancelled event with mismatched
boundary variants makes categorize_events abort with an error; the
caller load_events catches the exception and reports it once, and no
buckets from that fetch are produced — the well-formed events of the
pass are not categorized. -/
theorem c3_amended_abort (localOff ts te : Int) (events : List GEvent)
    (h : ∃ e ∈ events, ¬e.status = some "cancelled" ∧ malformedBoundary e = true) :
    ∃ m, categorize_events localOff ts te events = Except.error m ∧
      load_events_categorize localOff ts te events =
        (([], []), ["Failed to load events: " ++ m]) := by
  have herr : ∃ m, categorize_events localOff ts te events = Except.error m := by
    rcases hall : categorize_events localOff ts te events with m | p
    · exact ⟨m, rfl⟩
    · rcases h with ⟨e, he, hc, hm⟩
      rcases categorize_one_malformed localOff ts te e hc hm with ⟨m, hone⟩
      exact absurd hone (categorize_events_ok_of_mem localOff ts te events p hall e he m)
  rcases herr with ⟨m, hm⟩
  exact ⟨m, hm, by simp [load_events_categorize, hm]⟩

/-- Witness for the amended C3 theorem: a well-formed event followed
by a variant-mismatched one. -/
theorem c3_amended_witness :
    ∃ m, categorize_events 0 0 1440 [evGoodToday, evMismatched] = Except.error m ∧
      load_events_categorize 0 0 1440 [evGoodToday, evMismatched] =
        (([], []), ["Failed to load events: " ++ m]) :=
  c3_amended_abort 0 0 1440 [evGoodToday, evMismatched]
    ⟨evMismatched, by simp, by simp [evMismatched], by decide⟩

/-- Claim C4: instant boundaries are claimed to be converted to the
local zone preserving the absolute instant.  Evaluating the code at
the Scenario A event (23:00Z to 01:00Z, local zone UTC+9, reference
day 0): the code reinterprets the UTC wall clock as local time and
files the event under today, while the instant-preserving conversion
described by the spec (start at 08:00 local on day 1, at or after
todayEnd) files it under upcoming. -/
theorem c4_wallclock_reinterpretation_eval :
    categorize_events 540 0 1440 [evScenarioA] = Except.ok ([evScenarioA], []) ∧
      categorize_instant_spec 540 0 1440 ⟨1380, 0⟩ ⟨1500, 0⟩ = some false := by
  exact ⟨rfl, rfl⟩

/-! ## Add-event dialog theorem -/

/-- Claim C10: for every accepted draft, the returned event fields are
the sanitized forms of what the user typed: name and location are
stripped, filtered to printable characters and truncated to 256
characters, remarks likewise truncated to 1024; consequently all three
fields are within their length bounds and contain only printable
characters. -/
theorem c10_sanitization (ispr isws : Char → Bool) (st : DialogState)
    (draft : EventDraft) (h : get_event_data ispr isws st = some draft) :
    draft.name = sanitize ispr isws st.nameText 256 ∧
      draft.location = sanitize ispr isws st.locationText 256 ∧
      draft.remarks = sanitize ispr isws st.remarksText 1024 ∧
      draft.name.length ≤ 256 ∧ draft.location.length ≤ 256 ∧
      draft.remarks.length ≤ 1024 ∧
      (∀ ch ∈ draft.name, ispr ch = true) ∧
      (∀ ch ∈ draft.location, ispr ch = true) ∧
      (∀ ch ∈ draft.remarks, ispr ch = true) := by
  have hmem : ∀ (t : List Char) (n : Nat) (ch : Char),
      ch ∈ sanitize ispr isws t n → ispr ch = true := by
    intro t n ch hch
    have : ch ∈ List.filter ispr (pyStrip isws t) :=
      List.take_subset n _ hch
    exact (List.mem_filter.mp this).2
  have hlen : ∀ (t : List Char) (n : Nat), (sanitize ispr isws t n).length ≤ n := by
    intro t n
    exact List.length_take_le n _
  rw [get_event_data] at h
  by_cases hv : (validate_input isws st).1 = false
  · simp [hv] at h
  · simp only [hv, if_false] at h
    obtain rfl :
        draft =
          { name := sanitize ispr isws st.nameText 256
            location := sanitize ispr isws st.locationText 256
            remarks := sanitize ispr isws st.remarksText 1024
            start :=
              if st.allDay then DraftTime.dateOnly st.startDate
              else DraftTime.dateAndTime st.startDate st.startTime
            end_ :=
              if st.allDay then DraftTime.dateOnly st.endDate
              else DraftTime.dateAndTime st.endDate st.endTime
            is_all_day := st.allDay } := (Option.some.injEq _ _ ▸ h).symm
    exact ⟨rfl, rfl, rfl, hlen _ 256, hlen _ 256, hlen _ 1024,
      hmem _ 256, hmem _ 256, hmem _ 1024⟩

/-- ASCII restriction of str.isprintable, for the C10 witness. -/
def asciiPrintable (ch : Char) : Bool := 32 ≤ ch.toNat ∧ ch.toNat < 127

/-- ASCII restriction of the str.strip whitespace set, for the C10
witness. -/
def asciiSpace (ch : Char) : Bool :=
  ch = ' ' ∨ ch = '\t' ∨ ch = '\n' ∨ ch = '\r' ∨ ch = '\x0b' ∨ ch = '\x0c'

/-- The dialog state for the C10 witness: an all-day draft whose name
has surrounding blanks and an embedded control character. -/
def stC10 : DialogState :=
  { nameText := (" ab\x01c ").toList
    locationText := ("  loc  ").toList
    remarksText := ("note\x02").toList
    startDate := ⟨2024, 1, 1⟩
    endDate := ⟨2024, 1, 1⟩
    startTime := 0
    endTime := 0
    allDay := true
    currentYear := 2025 }

/-- The draft the dialog accepts from stC10. -/
def draftC10 : EventDraft :=
  { name := ("abc").toList
    location := ("loc").toList
    remarks := ("note").toList
    start := DraftTime.dateOnly ⟨2024, 1, 1⟩
    end_ := DraftTime.dateOnly ⟨2024, 1, 1⟩
    is_all_day := true }

/-- Witness for C10: the concrete draft accepted from stC10 satisfies
every conclusion, and its name abc differs from the typed text. -/
theorem c10_witness :
    (get_event_data asciiPrintable asciiSpace stC10 = some draftC10) ∧
      (draftC10.name = sanitize asciiPrintable asciiSpace stC10.nameText 256 ∧
        draftC10.location = sanitize asciiPrintable asciiSpace stC10.locationText 256 ∧
        draftC10.remarks = sanitize asciiPrintable asciiSpace stC10.remarksText 1024 ∧
        draftC10.name.length ≤ 256 ∧ draftC10.location.length ≤ 256 ∧
        draftC10.remarks.length ≤ 1024 ∧
        (∀ ch ∈ draftC10.name, asciiPrintable ch = true) ∧
        (∀ ch ∈ draftC10.location, asciiPrintable ch = true) ∧
        (∀ ch ∈ draftC10.remarks, asciiPrintable ch = true)) ∧
      draftC10.name ≠ stC10.nameText :=
  ⟨by decide,
    c10_sanitization asciiPrintable asciiSpace stC10 draftC10 (by decide),
    by decide⟩

end Seinxcal
